import Mathlib

/-!
Verification of the privateDex hedge-trading core: a shallow embedding of the
risk gate (src/services/risk_manager.py), the dual-leg open/close protocol and
protective-order computation (src/strategies/balanced_hedge_strategy.py), and
the anomaly trackers (src/core/hedge_trading_engine.py), together with theorems
settling the behavioural claims of the design spec against that code.

Python `Decimal` arithmetic is embedded as exact rational arithmetic on `ℚ`;
dictionaries keyed by account index / pair id are embedded as association
lists with one entry per key; log statements, metadata that never feeds back
into control flow, and network/API failure paths are noted per definition.
-/

namespace PrivateDex

/-- Position status enumeration from src/models.py (`PositionStatus`). -/
inductive PositionStatus
  | OPENING
  | ACTIVE
  | CLOSING
  | CLOSED
  | FAILED
  | PENDING
  | PENDING_CLOSE
  deriving DecidableEq

/-- Order side as used by the strategy code (the strings "buy" / "sell"). -/
inductive OrderSide
  | buy
  | sell
  deriving DecidableEq

/-- Position side as stored on `Position.side` (the strings "long" / "short"). -/
inductive PositionSide
  | long
  | short
  deriving DecidableEq

/-- First-match lookup with default 0, embedding Python `dict.get(k, Decimal('0'))`
on a dict represented as an association list with at most one entry per key. -/
def lookupD {α : Type} [DecidableEq α] : List (α × ℚ) → α → ℚ
  | [], _ => 0
  | (k, v) :: rest, key => if key = k then v else lookupD rest key

/-- Embedding of Python `d[k] = v`: overwrite the entry for `k` if present,
otherwise append a new entry. -/
def setEntry {α : Type} [DecidableEq α] : List (α × ℚ) → α → ℚ → List (α × ℚ)
  | [], k, v => [(k, v)]
  | (k0, v0) :: rest, k, v =>
      if k = k0 then (k, v) :: rest else (k0, v0) :: setEntry rest k v

/-- `sum(d.values())` for a dict represented as an association list. -/
def totalValues {α : Type} (m : List (α × ℚ)) : ℚ :=
  (m.map Prod.snd).sum

/-- Reasons carried by `RiskCheckResult.reason` (reason strings in the source,
`src/services/risk_manager.py`, `check_open_position_risk`). -/
inductive RiskReason
  | emergencyStopActive
  | globalDailyLossLimit
  | pairDailyLossLimit
  | positionSizeLimit
  | accountDataUnavailable (accountIndex : ℕ)
  | balanceLow (accountIndex : ℕ)
  | accountDailyLossLimit (accountIndex : ℕ)
  deriving DecidableEq

/-- `RiskCheckResult` dataclass (severity/action fields are not modelled: no
claim refers to them and they never feed back into the checking logic). -/
structure RiskCheckResult where
  allowed : Bool
  reason : Option RiskReason
  deriving DecidableEq

/-- Risk event types appended to `self.risk_events` by `_trigger_risk_event`. -/
inductive RiskEventType
  | globalDailyLossLimit
  | balanceLow
  deriving DecidableEq

/-- The `action` argument of `_trigger_risk_event`. -/
inductive RiskAction
  | emergencyStop
  | skipAccount
  deriving DecidableEq

/-- Mutable state of `RiskManager`: per-account daily losses, per-pair daily
losses, the recorded risk events, and the emergency-stop flag. -/
structure RiskState where
  dailyLosses : List (ℕ × ℚ)
  pairDailyLosses : List (String × ℚ)
  riskEvents : List RiskEventType
  emergencyStopActive : Bool
  deriving DecidableEq

/-- `_trigger_risk_event` (src/services/risk_manager.py lines 247-292): append
the event; when the action is "emergency_stop", `activate_emergency_stop` sets
the flag. Handler notification and logging are side effects outside the state. -/
def trigger_risk_event (s : RiskState) (eventType : RiskEventType)
    (action : RiskAction) : RiskState :=
  let s1 := { s with riskEvents := s.riskEvents ++ [eventType] }
  if action = RiskAction.emergencyStop then { s1 with emergencyStopActive := true } else s1

/-- One participating account as seen by the risk gate: the account config's
index and risk limits, and `account_manager.get_account(...)` resolved to its
available balance (`none` when the account data is unavailable). -/
structure AccountRiskEntry where
  index : ℕ
  minBalance : ℚ
  maxDailyLoss : ℚ
  availableBalance : Option ℚ
  deriving DecidableEq

/-- The per-account loop of `check_open_position_risk` (lines 122-161): for each
account in order, fail if the account data is unavailable, then if the available
balance is below the configured minimum (which also records a balance_low risk
event with action skip_account), then if the account's daily loss has reached
its ceiling; otherwise continue with the remaining accounts. -/
def check_accounts_risk (s : RiskState) : List AccountRiskEntry → RiskCheckResult × RiskState
  | [] => (⟨true, none⟩, s)
  | e :: rest =>
    match e.availableBalance with
    | none => (⟨false, some (RiskReason.accountDataUnavailable e.index)⟩, s)
    | some bal =>
      if bal < e.minBalance then
        (⟨false, some (RiskReason.balanceLow e.index)⟩,
          trigger_risk_event s RiskEventType.balanceLow RiskAction.skipAccount)
      else if e.maxDailyLoss ≤ lookupD s.dailyLosses e.index then
        (⟨false, some (RiskReason.accountDailyLossLimit e.index)⟩, s)
      else check_accounts_risk s rest

/-- `check_open_position_risk` (src/services/risk_manager.py lines 66-162).
Gates in source order: the emergency-stop flag; the global daily-loss ceiling
(whose breach records a risk event with action "emergency_stop", which
activates the emergency stop); the pair's daily-loss ceiling; the requested
base amount against the pair's max position size; then the per-account checks.
Each failing gate returns immediately with `allowed = false` and a reason. -/
def check_open_position_risk (s : RiskState) (globalMaxDailyLoss : ℚ)
    (pairId : String) (pairMaxDailyLoss pairMaxPositionSize : ℚ)
    (baseAmount : ℚ) (pairAccounts : List AccountRiskEntry) :
    RiskCheckResult × RiskState :=
  if s.emergencyStopActive then
    (⟨false, some RiskReason.emergencyStopActive⟩, s)
  else if globalMaxDailyLoss ≤ totalValues s.dailyLosses then
    (⟨false, some RiskReason.globalDailyLossLimit⟩,
      trigger_risk_event s RiskEventType.globalDailyLossLimit RiskAction.emergencyStop)
  else if pairMaxDailyLoss ≤ lookupD s.pairDailyLosses pairId then
    (⟨false, some RiskReason.pairDailyLossLimit⟩, s)
  else if pairMaxPositionSize < baseAmount then
    (⟨false, some RiskReason.positionSizeLimit⟩, s)
  else check_accounts_risk s pairAccounts

/-- `record_trade_pnl` (src/services/risk_manager.py lines 181-207): only
losses are tracked.  For `pnl < 0` both the per-account and the per-pair daily
loss entry grow by `|pnl|`; otherwise the maps are untouched (the subsequent
`_check_loss_limits` call only reads the maps and possibly records warning
events, which are not part of the loss maps). -/
def record_trade_pnl (s : RiskState) (accountIndex : ℕ) (pairId : String)
    (pnl : ℚ) : RiskState :=
  if pnl < 0 then
    { s with
      dailyLosses :=
        setEntry s.dailyLosses accountIndex (lookupD s.dailyLosses accountIndex + |pnl|),
      pairDailyLosses :=
        setEntry s.pairDailyLosses pairId (lookupD s.pairDailyLosses pairId + |pnl|) }
  else s

/-- One account passes the per-account stage of the risk gate: its data is
available, its balance meets the minimum, and its daily loss is under its
ceiling. -/
def account_passes (s : RiskState) (e : AccountRiskEntry) : Bool :=
  match e.availableBalance with
  | none => false
  | some bal =>
      decide (e.minBalance ≤ bal) && decide (lookupD s.dailyLosses e.index < e.maxDailyLoss)

/-- State of one pair's entry in `position_inconsistency_tracker`
(src/core/hedge_trading_engine.py, `_handle_position_inconsistency`).
Timestamps are embedded as rational numbers of seconds. -/
structure InconsistencyTracker where
  firstDetected : ℚ
  lastChecked : ℚ
  consecutiveCount : ℕ
  lastFingerprint : String
  statusHistory : List String
  deriving DecidableEq

/-- `_handle_position_inconsistency` (src/core/hedge_trading_engine.py lines
1254-1336), for one pair: given the pair's current tracker entry (`none` on
first detection), the freshly computed status fingerprint and the current time,
return whether remediation should fire together with the updated tracker.
First detection creates the entry with count 1 and returns false; an unchanged
fingerprint increments the count and returns true exactly when the new count
reaches 3; a changed fingerprint resets the entry to count 1 (keeping the last
10 fingerprints of history) and returns false. -/
def handle_position_inconsistency (tracker : Option InconsistencyTracker)
    (fingerprint : String) (now : ℚ) : Bool × InconsistencyTracker :=
  match tracker with
  | none => (false, ⟨now, now, 1, fingerprint, [fingerprint]⟩)
  | some t =>
    if t.lastFingerprint = fingerprint then
      let t1 := { t with consecutiveCount := t.consecutiveCount + 1, lastChecked := now }
      (decide (3 ≤ t1.consecutiveCount), t1)
    else
      let history := t.statusHistory ++ [fingerprint]
      let history10 := if 10 < history.length then history.drop (history.length - 10) else history
      (false, ⟨now, now, 1, fingerprint, history10⟩)

/-- State of one pair's entry in `position_issues_tracker`
(src/core/hedge_trading_engine.py, `_handle_position_issues`).  The
`issues_history` and `positions_snapshot` fields of the source are log-only
(they never influence control flow) and are not modelled. -/
structure IssuesTracker where
  count : ℕ
  firstDetected : ℚ
  lastDetected : ℚ
  deriving DecidableEq

/-- `_handle_position_issues` (src/core/hedge_trading_engine.py lines
1058-1141), for one pair: create the entry on first call, increment the
detection count, and force remediation (deleting the tracker entry) exactly
when the count has reached 3 and at least 30 seconds have passed since the
first detection.  Note this counter has no fingerprint comparison and never
resets on changed observations. -/
def handle_position_issues (tracker : Option IssuesTracker) (now : ℚ) :
    Bool × Option IssuesTracker :=
  let t0 : IssuesTracker := match tracker with
    | none => ⟨0, now, now⟩
    | some t => t
  let t1 : IssuesTracker := { t0 with count := t0.count + 1, lastDetected := now }
  if 3 ≤ t1.count ∧ 30 ≤ now - t1.firstDetected then (true, none)
  else (false, some t1)

/-- One API observation of a leg's remote position passes the closed check of
`_validate_position_closed_with_backend`: every observed size is at most 0.001
in absolute value (a leg with no remote position at all is observed as size 0). -/
def attempt_all_closed (sizes : List ℚ) : Bool :=
  sizes.all (fun s => decide (|s| ≤ 1 / 1000))

/-- The retry loop of `_validate_position_closed_with_backend`
(src/strategies/balanced_hedge_strategy.py lines 1409-1507): attempt number
`retry` re-queries every leg's remote position (`observe retry`); on a fully
closed observation the loop breaks with success, otherwise it sleeps and
retries until the attempt budget is exhausted. -/
def close_verify_loop (observe : ℕ → List ℚ) : ℕ → ℕ → Bool
  | _, 0 => false
  | retry, fuel + 1 =>
    if attempt_all_closed (observe retry) then true
    else close_verify_loop observe (retry + 1) fuel

/-- `_validate_position_closed_with_backend` (lines 1391-1538) under always-
successful API queries: if the position is no longer tracked locally the first
layer returns true immediately; otherwise the API layer retries up to
`max_retries = 3` times (fixed 2s delay, not modelled) and the overall result
is false whenever every attempt still observes a remaining size.  API-exception
paths are outside this model. -/
def validate_position_closed_with_backend (positionTracked : Bool)
    (observe : ℕ → List ℚ) : Bool :=
  if !positionTracked then true
  else close_verify_loop observe 0 3

/-- The terminal-state decision of `execute_hedge_close`
(src/strategies/balanced_hedge_strategy.py lines 1011-1054): when the majority
of legs closed successfully, the backend validation result decides between
CLOSED and PENDING_CLOSE; otherwise the position returns to ACTIVE. -/
def execute_hedge_close_status (successfulCloses failedCloses : ℕ)
    (closeValidation : Bool) : PositionStatus :=
  if failedCloses < successfulCloses then
    if closeValidation then PositionStatus.CLOSED else PositionStatus.PENDING_CLOSE
  else PositionStatus.ACTIVE

/-- A leg of a hedge position as recorded locally at open time (the fields of
`Position` used by `execute_hedge_close`). -/
structure LegPosition where
  accountIndex : ℕ
  marketIndex : ℕ
  side : PositionSide
  size : ℚ
  deriving DecidableEq

/-- A close order request as built by `_create_precise_close_order`. -/
structure CloseOrderRequest where
  accountIndex : ℕ
  marketIndex : ℕ
  side : OrderSide
  amount : ℚ
  price : ℚ
  deriving DecidableEq

/-- The close-order fan-out of `execute_hedge_close`
(src/strategies/balanced_hedge_strategy.py lines 971-989): for every leg of the
hedge position, an opposing limit order at the shared unified close price,
sized to the leg's locally recorded `position.size`. -/
def build_hedge_close_orders (positions : List LegPosition)
    (unifiedClosePrice : ℚ) : List CloseOrderRequest :=
  positions.map fun p =>
    { accountIndex := p.accountIndex
      marketIndex := p.marketIndex
      side := if p.side = PositionSide.long then OrderSide.sell else OrderSide.buy
      amount := p.size
      price := unifiedClosePrice }

/-- Modelled from the spec (section 4.5): the close-order fan-out as the spec
describes it, sized to each leg's *current remote* size freshly queried from
the venue rather than to the locally recorded size.  Used only to compare the
spec's wording against `build_hedge_close_orders`. -/
def build_hedge_close_orders_spec_remote_sized (positions : List LegPosition)
    (remoteSize : ℕ → ℚ) (unifiedClosePrice : ℚ) : List CloseOrderRequest :=
  positions.map fun p =>
    { accountIndex := p.accountIndex
      marketIndex := p.marketIndex
      side := if p.side = PositionSide.long then OrderSide.sell else OrderSide.buy
      amount := remoteSize p.accountIndex
      price := unifiedClosePrice }

/-- Best bid/ask of the order book (`orderbook.bids[0]` / `orderbook.asks[0]`). -/
structure OrderBookTop where
  bid : ℚ
  ask : ℚ
  deriving DecidableEq

/-- The pricing core of `_get_unified_execution_price`
(src/strategies/balanced_hedge_strategy.py lines 2317-2361), given resolved
market data and an optional order book top: with no usable order book the
market price is returned directly; otherwise the spread relative to the market
price is checked against `max_spread_for_entry = 0.5%` and the attempt is
rejected (`none`) when the spread exceeds it; order-book prices drifting more
than the 2% buffer from the market price fall back to the market price, and
otherwise the bid/ask mid price is returned. -/
def get_unified_execution_price (marketPrice : ℚ)
    (orderbook : Option OrderBookTop) : Option ℚ :=
  match orderbook with
  | none => some marketPrice
  | some ob =>
    let spreadPercent := (ob.ask - ob.bid) / marketPrice
    let maxSpreadForEntry : ℚ := 5 / 1000
    if maxSpreadForEntry < spreadPercent then none
    else
      let priceBuffer : ℚ := 2 / 100
      if priceBuffer < |ob.bid - marketPrice| / marketPrice ∨
          priceBuffer < |ob.ask - marketPrice| / marketPrice then
        some marketPrice
      else some ((ob.bid + ob.ask) / 2)

/-- What `execute_hedge_open` does after the unified-price step: either it
proceeds to submit the leg orders at some execution price, or it aborts the
attempt (the outcome the spec prescribes for a rejected reference price). -/
inductive OpenPriceStep
  | proceed (price : ℚ)
  | abort
  deriving DecidableEq

/-- The unified-price handling of `execute_hedge_open`
(src/strategies/balanced_hedge_strategy.py lines 220-232): when
`_get_unified_execution_price` returns no price, the code logs a warning and
falls back to the previously fetched current market price; in both cases it
proceeds to submit the leg orders. -/
def choose_open_execution_price (currentPrice : ℚ) (unified : Option ℚ) :
    OpenPriceStep :=
  match unified with
  | some p => OpenPriceStep.proceed p
  | none => OpenPriceStep.proceed currentPrice

/-- The pair config's `stop_take_distance` field: the string "auto", a numeric
manual distance in percent units, or an unparsable value (which the source maps
to the automatic distance as `auto_fallback`). -/
inductive StopTakeDistanceConfig
  | auto
  | manual (percentValue : ℚ)
  | invalid
  deriving DecidableEq

/-- The safe maximum stop distance of
`_create_hedge_stop_loss_take_profit_orders`
(src/strategies/balanced_hedge_strategy.py lines 2449-2460): for leverage
above 1, the 50% margin-loss point divided by the leverage, scaled by the 0.8
safety factor; otherwise the 5% spot-trading cap. -/
def safe_max_distance_percent (leverage : ℕ) : ℚ :=
  if 1 < leverage then
    let maxLossPercent : ℚ := 1 / 2
    let maxStopDistancePercent : ℚ := maxLossPercent / leverage
    let safetyFactor : ℚ := 8 / 10
    maxStopDistancePercent * safetyFactor
  else 5 / 100

/-- The distance selection of `_create_hedge_stop_loss_take_profit_orders`
(lines 2462-2496): auto and invalid configs use the safe maximum; a manual
config (percent units, divided by 100) is used as-is unless it exceeds the
safe maximum, in which case it is capped to it. -/
def stop_loss_take_profit_percent (leverage : ℕ)
    (config : StopTakeDistanceConfig) : ℚ :=
  let safeMax := safe_max_distance_percent leverage
  match config with
  | StopTakeDistanceConfig.auto => safeMax
  | StopTakeDistanceConfig.manual v =>
      let manualPercent := v / 100
      if safeMax < manualPercent then safeMax else manualPercent
  | StopTakeDistanceConfig.invalid => safeMax

/-- Python `int(...)` on an exact rational: truncation toward zero. -/
def py_int (q : ℚ) : ℤ :=
  if 0 ≤ q then ⌊q⌋ else ⌈q⌉

/-- `adjusted_stop_loss_bps = int(stop_loss_take_profit_percent * 10000)`
(line 2499; line 2500 computes the identical value for take-profit). -/
def adjusted_stop_loss_bps (leverage : ℕ) (config : StopTakeDistanceConfig) : ℤ :=
  py_int (stop_loss_take_profit_percent leverage config * 10000)

/-- `price_distance_percent = Decimal(adjusted_stop_loss_bps) / 10000`
(line 2521): the single shared trigger distance. -/
def price_distance_percent (leverage : ℕ) (config : StopTakeDistanceConfig) : ℚ :=
  (adjusted_stop_loss_bps leverage config : ℚ) / 10000

/-- One entry of the `positions` argument of
`_create_hedge_stop_loss_take_profit_orders` (an account with its open-order
side, filled amount and entry price). -/
structure SlTpPosition where
  accountIndex : ℕ
  side : OrderSide
  amount : ℚ
  entryPrice : ℚ
  deriving DecidableEq

/-- `avg_entry_price = sum(amount*entry_price) / sum(amount)` (lines
2507-2514): the size-weighted average fill price used as the shared basis. -/
def avg_entry_price (positions : List SlTpPosition) : ℚ :=
  (positions.map fun p => p.amount * p.entryPrice).sum /
    (positions.map SlTpPosition.amount).sum

/-- The protective-order pair planned for one leg: sides and trigger prices of
its stop-loss and take-profit orders. -/
structure ProtectivePlan where
  accountIndex : ℕ
  slSide : OrderSide
  tpSide : OrderSide
  slTriggerPrice : ℚ
  tpTriggerPrice : ℚ
  amount : ℚ
  deriving DecidableEq

/-- The per-leg trigger assignment of
`_create_hedge_stop_loss_take_profit_orders` (lines 2537-2559): a long ("buy")
leg sells at the lower price on stop-loss and at the upper price on
take-profit; a short leg buys at the upper price on stop-loss and at the lower
price on take-profit. -/
def plan_protective_orders (hedgeLowerPrice hedgeUpperPrice : ℚ)
    (p : SlTpPosition) : ProtectivePlan :=
  if p.side = OrderSide.buy then
    ⟨p.accountIndex, OrderSide.sell, OrderSide.sell,
      hedgeLowerPrice, hedgeUpperPrice, p.amount⟩
  else
    ⟨p.accountIndex, OrderSide.buy, OrderSide.buy,
      hedgeUpperPrice, hedgeLowerPrice, p.amount⟩

/-- The trigger-price computation of
`_create_hedge_stop_loss_take_profit_orders` (lines 2498-2559): the shared
basis is the weighted average entry price, the shared distance is the
bps-truncated selected percentage, the two trigger prices are
`avg * (1 ∓ distance)`, and every leg receives the mirrored plan.  With no
positions or zero total amount the source returns without creating orders. -/
def create_hedge_sl_tp_plans (leverage : ℕ) (config : StopTakeDistanceConfig)
    (positions : List SlTpPosition) : List ProtectivePlan :=
  let d := price_distance_percent leverage config
  let avg := avg_entry_price positions
  let hedgeLowerPrice := avg * (1 - d)
  let hedgeUpperPrice := avg * (1 + d)
  if (positions.map SlTpPosition.amount).sum = 0 then []
  else positions.map (plan_protective_orders hedgeLowerPrice hedgeUpperPrice)

/-- Python `min` over a nonempty list (0 on the empty list, matching the
`if account_balances else Decimal('0')` guard of the caller). -/
def minOf : List ℚ → ℚ
  | [] => 0
  | b :: bs => bs.foldl min b

/-- Python `max` over a nonempty list (0 on the empty list). -/
def maxOf : List ℚ → ℚ
  | [] => 0
  | b :: bs => bs.foldl max b

/-- The sizing arithmetic of `execute_hedge_open`
(src/strategies/balanced_hedge_strategy.py lines 134-218), applied to the
balance values fetched by `_get_account_balances` (see
`get_account_balances` below for which account field those are): leverage
below 1 is coerced to 1; the limiting balance is the minimum fetched balance;
the shared per-account margin is `max(0, min_balance - min_balance_required)`;
leverage above 1 multiplies it into the per-account notional; and the
per-account instrument quantity divides that notional by the freshly fetched
market price (`market_data.price`).  Returns (margin, notional, quantity) per
account. -/
def compute_open_sizing (balances : List ℚ) (minBalanceRequired : ℚ)
    (leverage : ℕ) (currentPrice : ℚ) : ℚ × ℚ × ℚ :=
  let lev := if leverage < 1 then 1 else leverage
  let minBalance := minOf balances
  let maxSafeMarginPerAccount := max 0 (minBalance - minBalanceRequired)
  let actualPositionPerAccount :=
    if 1 < lev then maxSafeMarginPerAccount * lev else maxSafeMarginPerAccount
  let amountPerAccount := actualPositionPerAccount / currentPrice
  (maxSafeMarginPerAccount, actualPositionPerAccount, amountPerAccount)

/-- Outcome of the post-fill finalization of `execute_hedge_open`. -/
structure OpenFillFinalization where
  status : PositionStatus
  priceConsistencyVerified : Bool
  marketOrderPriceWarning : Bool
  priceDiffPercent : ℚ
  addedToActivePositions : Bool
  deriving DecidableEq

/-- The post-fill consistency handling of `execute_hedge_open`
(src/strategies/balanced_hedge_strategy.py lines 407-496), starting from the
point where every leg order is treated as filled (status already set ACTIVE at
line 311): `price_consistency_verified` is unconditionally `True` for market
orders; the relative fill-price divergence is compared against the 2% strict
tolerance, and exceeding it only records the `market_order_price_warning`
metadata flag; the `if price_consistency_verified:` branch then keeps the
position ACTIVE, registers it in `active_positions` and goes on to create the
protective orders.  No branch of this code unwinds the legs or marks the
attempt FAILED. -/
def finalize_open_after_fills (entryPrices : List ℚ) : OpenFillFinalization :=
  let priceConsistencyVerified := true
  let strictTolerance : ℚ := 2 / 100
  let priceDiff : ℚ :=
    if 2 ≤ entryPrices.length then
      let maxEntry := maxOf entryPrices
      let minEntry := minOf entryPrices
      if 0 < minEntry then (maxEntry - minEntry) / minEntry else 0
    else 0
  let warning := decide (2 ≤ entryPrices.length) && decide (strictTolerance < priceDiff)
  if priceConsistencyVerified then
    { status := PositionStatus.ACTIVE
      priceConsistencyVerified := priceConsistencyVerified
      marketOrderPriceWarning := warning
      priceDiffPercent := priceDiff
      addedToActivePositions := true }
  else
    { status := PositionStatus.ACTIVE
      priceConsistencyVerified := priceConsistencyVerified
      marketOrderPriceWarning := warning
      priceDiffPercent := priceDiff
      addedToActivePositions := false }

/-! ## Helper lemmas -/

theorem lookupD_setEntry_self {α : Type} [DecidableEq α]
    (m : List (α × ℚ)) (k : α) (v : ℚ) :
    lookupD (setEntry m k v) k = v := by
  induction m with
  | nil => simp [setEntry, lookupD]
  | cons hd tl ih =>
    obtain ⟨k0, v0⟩ := hd
    by_cases h : k = k0
    · subst h; simp [setEntry, lookupD]
    · simp [setEntry, lookupD, h, ih]

theorem lookupD_setEntry_ne {α : Type} [DecidableEq α]
    (m : List (α × ℚ)) (k k' : α) (v : ℚ) (h : k' ≠ k) :
    lookupD (setEntry m k v) k' = lookupD m k' := by
  induction m with
  | nil => simp [setEntry, lookupD, h]
  | cons hd tl ih =>
    obtain ⟨k0, v0⟩ := hd
    by_cases h0 : k = k0
    · subst h0; simp [setEntry, lookupD, h]
    · by_cases h1 : k' = k0 <;> simp [setEntry, lookupD, h0, h1, ih]

theorem foldl_min_max_sub (m : ℚ) (bs : List ℚ) : ∀ a : ℚ,
    List.foldl min (max 0 (a - m)) (bs.map fun b => max 0 (b - m)) =
      max 0 (List.foldl min a bs - m) := by
  induction bs with
  | nil => intro a; rfl
  | cons b bs ih =>
    intro a
    have hstep : min (max 0 (a - m)) (max 0 (b - m)) = max 0 (min a b - m) := by
      rw [← min_sub_sub_right, max_min_distrib_left]
    simp only [List.map_cons, List.foldl_cons]
    rw [hstep, ih]

theorem min_margin_capacity (m : ℚ) (balances : List ℚ) (hne : balances ≠ []) :
    max 0 (minOf balances - m) = minOf (balances.map fun b => max 0 (b - m)) := by
  cases balances with
  | nil => exact absurd rfl hne
  | cons b bs =>
    simp only [minOf, List.map_cons]
    exact (foldl_min_max_sub m bs b).symm

theorem check_accounts_risk_spec (s : RiskState) (accs : List AccountRiskEntry) :
    ((check_accounts_risk s accs).1.allowed = true ↔
        accs.all (account_passes s) = true) ∧
    ((check_accounts_risk s accs).1.allowed = true →
        (check_accounts_risk s accs).1.reason = none ∧
        (check_accounts_risk s accs).2 = s) ∧
    ((check_accounts_risk s accs).1.allowed = false →
        (check_accounts_risk s accs).1.reason ≠ none) := by
  induction accs with
  | nil => simp [check_accounts_risk]
  | cons e rest ih =>
    obtain ⟨ih1, ih2, ih3⟩ := ih
    cases he : e.availableBalance with
    | none => simp [check_accounts_risk, he, account_passes]
    | some bal =>
      by_cases h1 : bal < e.minBalance
      · simp [check_accounts_risk, he, account_passes, h1, not_le.mpr h1]
      · by_cases h2 : e.maxDailyLoss ≤ lookupD s.dailyLosses e.index
        · simp [check_accounts_risk, he, account_passes, h1, h2, not_lt.mpr h2]
        · simp only [check_accounts_risk, he, if_neg h1, if_neg h2]
          refine ⟨?_, ih2, ih3⟩
          simp [account_passes, he, not_lt.mp h1, not_le.mp h2, ih1]

/-! ## C10 — record_trade_pnl frame conditions -/

/-- C10: a call to `record_trade_pnl` with `pnl ≥ 0` leaves the risk state
(and in particular both daily-loss maps) completely unchanged; a call with
`pnl < 0` increases the account's and the pair's daily-loss entry by exactly
`|pnl|`, leaving every other account, every other pair, the risk events and
the emergency-stop flag untouched. -/
theorem record_trade_pnl_spec (s : RiskState) (a : ℕ) (pid : String) (pnl : ℚ) :
    (0 ≤ pnl → record_trade_pnl s a pid pnl = s) ∧
    (pnl < 0 →
      lookupD (record_trade_pnl s a pid pnl).dailyLosses a =
        lookupD s.dailyLosses a + |pnl| ∧
      lookupD (record_trade_pnl s a pid pnl).pairDailyLosses pid =
        lookupD s.pairDailyLosses pid + |pnl| ∧
      (∀ a' : ℕ, a' ≠ a →
        lookupD (record_trade_pnl s a pid pnl).dailyLosses a' =
          lookupD s.dailyLosses a') ∧
      (∀ p' : String, p' ≠ pid →
        lookupD (record_trade_pnl s a pid pnl).pairDailyLosses p' =
          lookupD s.pairDailyLosses p') ∧
      (record_trade_pnl s a pid pnl).riskEvents = s.riskEvents ∧
      (record_trade_pnl s a pid pnl).emergencyStopActive = s.emergencyStopActive) := by
  constructor
  · intro h
    simp [record_trade_pnl, not_lt.mpr h]
  · intro h
    have hmaps : record_trade_pnl s a pid pnl =
        { s with
          dailyLosses :=
            setEntry s.dailyLosses a (lookupD s.dailyLosses a + |pnl|),
          pairDailyLosses :=
            setEntry s.pairDailyLosses pid (lookupD s.pairDailyLosses pid + |pnl|) } := by
      simp [record_trade_pnl, if_pos h]
    rw [hmaps]
    exact ⟨lookupD_setEntry_self _ _ _, lookupD_setEntry_self _ _ _,
      fun a' ha' => lookupD_setEntry_ne _ _ _ _ ha',
      fun p' hp' => lookupD_setEntry_ne _ _ _ _ hp', rfl, rfl⟩

/-- C10 witness: concrete loss and profit recordings. -/
theorem record_trade_pnl_spec_witness :
    lookupD (record_trade_pnl ⟨[], [], [], false⟩ 1 ("btc") (-5)).dailyLosses 1 =
      lookupD (⟨[], [], [], false⟩ : RiskState).dailyLosses 1 + |(-5 : ℚ)| ∧
    record_trade_pnl ⟨[(1, 3)], [], [], false⟩ 1 ("btc") 7 =
      (⟨[(1, 3)], [], [], false⟩ : RiskState) :=
  ⟨((record_trade_pnl_spec ⟨[], [], [], false⟩ 1 ("btc") (-5)).2 (by norm_num)).1,
    (record_trade_pnl_spec ⟨[(1, 3)], [], [], false⟩ 1 ("btc") 7).1 (by norm_num)⟩

/-! ## C7 — stop-distance computation -/

/-- C7: the protective stop distance.  For leverage above 1 the automatic
distance is `0.8 * (0.5 / leverage)` (hence exactly 0.08 at leverage 5); at
leverage 1 it is the 5% floor; a manual distance (configured in percent) is
used only when it does not exceed the automatic distance and is capped to it
otherwise, so a manual 20 (i.e. 0.20) at leverage 5 yields 0.08. -/
theorem stop_distance_computation_spec (lev : ℕ) (hlev : 1 < lev) (v : ℚ) :
    safe_max_distance_percent lev = 8 / 10 * (1 / 2 / (lev : ℚ)) ∧
    safe_max_distance_percent 5 = 8 / 100 ∧
    safe_max_distance_percent 1 = 5 / 100 ∧
    (v / 100 ≤ safe_max_distance_percent lev →
      stop_loss_take_profit_percent lev (StopTakeDistanceConfig.manual v) = v / 100) ∧
    (safe_max_distance_percent lev < v / 100 →
      stop_loss_take_profit_percent lev (StopTakeDistanceConfig.manual v) =
        safe_max_distance_percent lev) ∧
    stop_loss_take_profit_percent 5 (StopTakeDistanceConfig.manual 20) = 8 / 100 := by
  refine ⟨?_, by norm_num [safe_max_distance_percent],
    by norm_num [safe_max_distance_percent], ?_, ?_,
    by norm_num [stop_loss_take_profit_percent, safe_max_distance_percent]⟩
  · simp only [safe_max_distance_percent, if_pos hlev]
    ring
  · intro h
    simp only [stop_loss_take_profit_percent]
    rw [if_neg (not_lt.mpr h)]
  · intro h
    simp only [stop_loss_take_profit_percent]
    rw [if_pos h]

/-- C7 witness: the theorem instantiated at leverage 5 and manual distance 20. -/
theorem stop_distance_computation_spec_witness :
    safe_max_distance_percent 5 = 8 / 10 * (1 / 2 / ((5 : ℕ) : ℚ)) ∧
    safe_max_distance_percent 5 = 8 / 100 ∧
    safe_max_distance_percent 1 = 5 / 100 ∧
    ((20 : ℚ) / 100 ≤ safe_max_distance_percent 5 →
      stop_loss_take_profit_percent 5 (StopTakeDistanceConfig.manual 20) = 20 / 100) ∧
    (safe_max_distance_percent 5 < (20 : ℚ) / 100 →
      stop_loss_take_profit_percent 5 (StopTakeDistanceConfig.manual 20) =
        safe_max_distance_percent 5) ∧
    stop_loss_take_profit_percent 5 (StopTakeDistanceConfig.manual 20) = 8 / 100 :=
  stop_distance_computation_spec 5 (by norm_num) 20

/-! ## C4 — close orders sized from the local record, not a fresh remote query -/

/-- Concrete leg for the C4 counterexample: locally recorded size 1. -/
def close_cex_leg : LegPosition := ⟨7, 1, PositionSide.long, 1⟩

/-- Concrete remote-size query for the C4 counterexample: the venue currently
reports size 2 for every account. -/
def close_cex_remote_size : ℕ → ℚ := fun _ => 2

/-- C4 counterexample: with a leg locally recorded at size 1 while the venue
currently reports size 2, `execute_hedge_close` submits a close order of
amount 1 (the recorded size), not the amount 2 the spec's remote-sized close
would submit — so the claim that close orders are sized to the freshly queried
remote size is false on the code. -/
theorem close_order_sized_from_local_record_cex :
    (build_hedge_close_orders [close_cex_leg] 100).map CloseOrderRequest.amount
      = [1] ∧
    (build_hedge_close_orders_spec_remote_sized [close_cex_leg]
        close_cex_remote_size 100).map CloseOrderRequest.amount = [2] ∧
    ([1] : List ℚ) ≠ [2] := by
  refine ⟨rfl, rfl, by decide⟩

/-- C4 amended: `execute_hedge_close` sizes each leg's opposing close order to
the leg's locally recorded `position.size` from open time (all close orders
share the unified close price; no per-leg remote size query is made). -/
theorem build_hedge_close_orders_use_recorded_size
    (positions : List LegPosition) (price : ℚ) :
    (build_hedge_close_orders positions price).map CloseOrderRequest.amount
      = positions.map LegPosition.size ∧
    (build_hedge_close_orders positions price).map CloseOrderRequest.price
      = positions.map fun _ => price := by
  constructor <;> simp [build_hedge_close_orders, Function.comp_def]

/-! ## C5 — high spread: reference price rejected, but the open proceeds -/

/-- C5 counterexample: with best bid 100 / best ask 101 against market price
100 the spread is 1%, above the 0.5% threshold, so the reference-price routine
returns none — but `execute_hedge_open` does not abort: it proceeds with the
fallback current price, so the claim that no leg order is submitted under this
condition is false on the code. -/
theorem high_spread_open_not_aborted_cex :
    get_unified_execution_price 100 (some ⟨100, 101⟩) = none ∧
    choose_open_execution_price 100 (get_unified_execution_price 100 (some ⟨100, 101⟩)) =
      OpenPriceStep.proceed 100 ∧
    OpenPriceStep.proceed (100 : ℚ) ≠ OpenPriceStep.abort := by
  have h1 : get_unified_execution_price 100 (some ⟨100, 101⟩) = none := by
    simp only [get_unified_execution_price]
    rw [if_pos (by norm_num)]
  exact ⟨h1, by rw [h1]; rfl, by simp⟩

/-- C5 amended: whenever the fetched spread (relative to the market price)
exceeds the 0.5% max-spread threshold, `_get_unified_execution_price` returns
none, and `execute_hedge_open` then proceeds with the previously fetched
current market price as fallback instead of aborting the attempt. -/
theorem high_spread_returns_none_but_open_proceeds (marketPrice : ℚ)
    (ob : OrderBookTop) (h : 5 / 1000 < (ob.ask - ob.bid) / marketPrice)
    (currentPrice : ℚ) :
    get_unified_execution_price marketPrice (some ob) = none ∧
    choose_open_execution_price currentPrice
        (get_unified_execution_price marketPrice (some ob)) =
      OpenPriceStep.proceed currentPrice := by
  have h1 : get_unified_execution_price marketPrice (some ob) = none := by
    simp only [get_unified_execution_price]
    rw [if_pos h]
  exact ⟨h1, by rw [h1]; rfl⟩

/-- C5 witness: the amended theorem at bid 100, ask 101, market price 100. -/
theorem high_spread_returns_none_but_open_proceeds_witness :
    get_unified_execution_price 100 (some ⟨100, 101⟩) = none ∧
    choose_open_execution_price 99 (get_unified_execution_price 100 (some ⟨100, 101⟩)) =
      OpenPriceStep.proceed 99 :=
  high_spread_returns_none_but_open_proceeds 100 ⟨100, 101⟩ (by norm_num) 99

/-! ## C1 — post-fill price divergence does not fail the open -/

/-- C1 counterexample: with leg fills at 100.00 and 102.50 (2.5% divergence,
above the 2% strict tolerance) the post-fill handling of `execute_hedge_open`
still activates the position (status ACTIVE, registered in active positions),
refuting the claim that the open attempt is marked FAILED and unwound. -/
theorem open_diverged_prices_still_active_cex :
    (finalize_open_after_fills [100, 1025 / 10]).status = PositionStatus.ACTIVE ∧
    2 / 100 < (finalize_open_after_fills [100, 1025 / 10]).priceDiffPercent ∧
    (finalize_open_after_fills [100, 1025 / 10]).status ≠ PositionStatus.FAILED ∧
    (finalize_open_after_fills [100, 1025 / 10]).addedToActivePositions = true := by
  have hd : finalize_open_after_fills [100, 1025 / 10] =
      { status := PositionStatus.ACTIVE
        priceConsistencyVerified := true
        marketOrderPriceWarning := true
        priceDiffPercent := 1 / 40
        addedToActivePositions := true } := by
    norm_num [finalize_open_after_fills, maxOf, minOf, max_def, min_def]
  rw [hd]
  exact ⟨rfl, by norm_num, by decide, rfl⟩

/-- C1 amended: when at least two legs fill and the relative fill-price
divergence exceeds the 2% tolerance, `execute_hedge_open` does not fail or
unwind anything: `price_consistency_verified` stays true, only the
`market_order_price_warning` metadata flag is recorded, and the position is
activated and registered in `active_positions` (after which the protective
orders are created). -/
theorem finalize_open_after_fills_diverged_active (entryPrices : List ℚ)
    (hlen : 2 ≤ entryPrices.length) (hmin : 0 < minOf entryPrices)
    (hdiv : 2 / 100 < (maxOf entryPrices - minOf entryPrices) / minOf entryPrices) :
    (finalize_open_after_fills entryPrices).status = PositionStatus.ACTIVE ∧
    (finalize_open_after_fills entryPrices).priceConsistencyVerified = true ∧
    (finalize_open_after_fills entryPrices).marketOrderPriceWarning = true ∧
    (finalize_open_after_fills entryPrices).addedToActivePositions = true := by
  have hd : finalize_open_after_fills entryPrices =
      { status := PositionStatus.ACTIVE
        priceConsistencyVerified := true
        marketOrderPriceWarning := true
        priceDiffPercent := (maxOf entryPrices - minOf entryPrices) / minOf entryPrices
        addedToActivePositions := true } := by
    simp only [finalize_open_after_fills, if_pos hlen, if_pos hmin, if_true]
    simp [hlen, hdiv]
  rw [hd]
  exact ⟨rfl, rfl, rfl, rfl⟩

/-- C1 amended witness: the fills 100.00 / 102.50. -/
theorem finalize_open_after_fills_diverged_active_witness :
    (finalize_open_after_fills [100, 1025 / 10]).status = PositionStatus.ACTIVE ∧
    (finalize_open_after_fills [100, 1025 / 10]).priceConsistencyVerified = true ∧
    (finalize_open_after_fills [100, 1025 / 10]).marketOrderPriceWarning = true ∧
    (finalize_open_after_fills [100, 1025 / 10]).addedToActivePositions = true :=
  finalize_open_after_fills_diverged_active [100, 1025 / 10] (by norm_num)
    (by norm_num [minOf, min_def]) (by norm_num [minOf, maxOf, min_def, max_def])

/-! ## C2 — the fingerprint tracker fires without the 30-second dwell -/

/-- C2 counterexample: three updates with the identical fingerprint at times
0, 10 and 20 seconds — only 20 seconds after first detection — already return
shouldRemediate = true on the third update, refuting the claim that
remediation requires both strikes ≥ 3 and ≥ 30 seconds elapsed. -/
theorem inconsistency_tracker_no_dwell_cex :
    (handle_position_inconsistency
        (some (handle_position_inconsistency
          (some (handle_position_inconsistency none ("a") 0).2) ("a") 10).2)
        ("a") 20).1 = true ∧
    (20 : ℚ) -
        (handle_position_inconsistency
          (some (handle_position_inconsistency
            (some (handle_position_inconsistency none ("a") 0).2) ("a") 10).2)
          ("a") 20).2.firstDetected < 30 := by
  norm_num [handle_position_inconsistency]

/-- C2 amended: on an update of the position-inconsistency tracker, an
unchanged fingerprint increments the strike count (keeping the first-detection
time) and returns shouldRemediate = true exactly when the new count reaches 3,
with no elapsed-time requirement; a changed fingerprint resets the count to 1
(restarting the first-detection time) and returns false.  The ≥ 30-second
dwell exists only in the separate per-pair position-issues counter, which
increments on every call without any fingerprint comparison and fires exactly
when its count reaches 3 and at least 30 seconds have passed since its first
detection. -/
theorem anomaly_tracker_update_spec (t : InconsistencyTracker) (fp : String)
    (now : ℚ) :
    (t.lastFingerprint = fp →
      (handle_position_inconsistency (some t) fp now).2.consecutiveCount =
        t.consecutiveCount + 1 ∧
      (handle_position_inconsistency (some t) fp now).2.firstDetected =
        t.firstDetected ∧
      ((handle_position_inconsistency (some t) fp now).1 = true ↔
        3 ≤ t.consecutiveCount + 1)) ∧
    (t.lastFingerprint ≠ fp →
      (handle_position_inconsistency (some t) fp now).2.consecutiveCount = 1 ∧
      (handle_position_inconsistency (some t) fp now).2.firstDetected = now ∧
      (handle_position_inconsistency (some t) fp now).1 = false) ∧
    (∀ tr : Option IssuesTracker,
      ((handle_position_issues tr now).1 = true ↔
        3 ≤ tr.elim 0 IssuesTracker.count + 1 ∧
          30 ≤ now - tr.elim now IssuesTracker.firstDetected)) := by
  refine ⟨?_, ?_, ?_⟩
  · intro h
    simp [handle_position_inconsistency, h]
  · intro h
    simp [handle_position_inconsistency, h]
  · intro tr
    cases tr with
    | none =>
      simp only [handle_position_issues, Option.elim]
      split <;> simp_all
    | some t0 =>
      simp only [handle_position_issues, Option.elim]
      split <;> simp_all

/-- C2 amended witness: strike 2 tracker hit by an equal fingerprint
remediates immediately; a differing fingerprint at strike 2 resets to 1. -/
theorem anomaly_tracker_update_spec_witness :
    (handle_position_inconsistency (some ⟨0, 0, 2, "a", ["a"]⟩) ("a") 40).1 = true ∧
    (handle_position_inconsistency (some ⟨0, 0, 2, "a", ["a"]⟩) ("b") 40).2.consecutiveCount = 1 :=
  ⟨((anomaly_tracker_update_spec ⟨0, 0, 2, "a", ["a"]⟩ ("a") 40).1 rfl).2.2.mpr
      (by norm_num),
    ((anomaly_tracker_update_spec ⟨0, 0, 2, "a", ["a"]⟩ ("b") 40).2.1 (by decide)).1⟩

/-! ## C3 — failed close verification ends in PENDING_CLOSE -/

/-- C3: when the post-close verification's three retry attempts each still
observe some leg with a remaining remote size above the 0.001 threshold, the
backend validation fails, and for any majority-successful close fan-out
`execute_hedge_close` transitions the position to PENDING_CLOSE — never to
CLOSED. -/
theorem execute_hedge_close_pending_close (observe : ℕ → List ℚ)
    (h : ∀ i, i < 3 → ∃ s ∈ observe i, 1 / 1000 < |s|)
    (successfulCloses failedCloses : ℕ)
    (hmaj : failedCloses < successfulCloses) :
    validate_position_closed_with_backend true observe = false ∧
    execute_hedge_close_status successfulCloses failedCloses
        (validate_position_closed_with_backend true observe) =
      PositionStatus.PENDING_CLOSE := by
  have hA : ∀ i, i < 3 → attempt_all_closed (observe i) = false := by
    intro i hi
    obtain ⟨s, hs, hgt⟩ := h i hi
    simp only [attempt_all_closed, List.all_eq_false]
    exact ⟨s, hs, by simpa using not_le.mpr hgt⟩
  have hv : validate_position_closed_with_backend true observe = false := by
    simp [validate_position_closed_with_backend, close_verify_loop,
      hA 0 (by norm_num), hA 1 (by norm_num), hA 2 (by norm_num)]
  refine ⟨hv, ?_⟩
  rw [hv]
  simp [execute_hedge_close_status, hmaj]

/-- Concrete stuck observation for the C3 witness: every attempt still sees a
full-size remote position. -/
def stuck_close_observation : ℕ → List ℚ := fun _ => [1]

/-- C3 witness: three failed verification attempts with 2 successful and 0
failed close orders end in PENDING_CLOSE. -/
theorem execute_hedge_close_pending_close_witness :
    validate_position_closed_with_backend true stuck_close_observation = false ∧
    execute_hedge_close_status 2 0
        (validate_position_closed_with_backend true stuck_close_observation) =
      PositionStatus.PENDING_CLOSE :=
  execute_hedge_close_pending_close stuck_close_observation
    (fun i _ => ⟨1, by simp [stuck_close_observation], by norm_num⟩)
    2 0 (by norm_num)

/-! ## C9 — open sizing reads the total balance, not the available balance -/

/-- A cached `Account` as the sizing path sees it: `balance` is populated from
the venue's `collateral` field (src/services/account_manager.py lines
214-217), and `available_balance` is a distinct field (lines 219-222) that the
sizing path never reads. -/
structure AccountFunds where
  index : ℕ
  balance : ℚ
  availableBalance : ℚ
  deriving DecidableEq

/-- `_get_account_balances` (src/strategies/balanced_hedge_strategy.py lines
2700-2718) resolved through `AccountManager.get_account_balance`
(src/services/account_manager.py lines 379-382): for each participating
account it reads `account.balance` — the total collateral — and not
`account.available_balance` (which has its own accessor,
`get_available_balance`, unused by this path). -/
def get_account_balances (accounts : List AccountFunds) : List ℚ :=
  accounts.map AccountFunds.balance

/-- The full sizing pipeline of `execute_hedge_open` (lines 142-218): fetch
each account's `balance` (total collateral) and run the sizing arithmetic of
`compute_open_sizing` on those balances. -/
def compute_open_sizing_from_accounts (accounts : List AccountFunds)
    (minBalanceRequired : ℚ) (leverage : ℕ) (currentPrice : ℚ) : ℚ × ℚ × ℚ :=
  compute_open_sizing (get_account_balances accounts) minBalanceRequired
    leverage currentPrice

/-- Modelled from the spec (section 4.3 step 2, as quoted by the claim): the
shared margin the claim describes, the minimum over the participating accounts
of `max(0, availableBalance - minBalanceRequired)`.  Used only to compare the
claim's wording against the code's balance-field choice. -/
def claimed_margin_from_available (accounts : List AccountFunds)
    (minBalanceRequired : ℚ) : ℚ :=
  minOf (accounts.map fun a => max 0 (a.availableBalance - minBalanceRequired))

/-- C9 counterexample: two accounts whose total balance (collateral) is 1000
but whose available balance is only 400, with min-balance requirement 100.
The code's sizing margin is max(0, 1000 - 100) = 900 from the `balance`
field, while the claim's available-balance formula gives 300 — so the claim
that the margin derives from availableBalance is false on the code. -/
theorem open_sizing_uses_total_balance_cex :
    (compute_open_sizing_from_accounts
        [⟨1, 1000, 400⟩, ⟨2, 1000, 400⟩] 100 1 50).1 = 900 ∧
    claimed_margin_from_available [⟨1, 1000, 400⟩, ⟨2, 1000, 400⟩] 100 = 300 ∧
    (900 : ℚ) ≠ 300 := by
  norm_num [compute_open_sizing_from_accounts, compute_open_sizing,
    get_account_balances, claimed_margin_from_available, minOf, min_def, max_def]

/-- C9 amended: the shared per-account margin equals the minimum over the
participating accounts of `max(0, balance - minBalanceRequired)` where
`balance` is the account's total balance (`account.balance`, populated from
the venue's collateral) rather than its available balance; each leg's notional
USD exposure is that margin times the configured leverage; the per-leg
instrument quantity is the notional divided by the just-fetched market price;
and total balances 1000 / 800 with min balance 100 at leverage 1 give both
legs a 700 USD notional. -/
theorem compute_open_sizing_total_balance_spec (accounts : List AccountFunds)
    (minBalanceRequired : ℚ) (leverage : ℕ) (currentPrice : ℚ)
    (hne : accounts ≠ []) (hlev : 1 ≤ leverage) :
    (compute_open_sizing_from_accounts accounts minBalanceRequired leverage
        currentPrice).1 =
      minOf (accounts.map fun a => max 0 (a.balance - minBalanceRequired)) ∧
    (compute_open_sizing_from_accounts accounts minBalanceRequired leverage
        currentPrice).2.1 =
      (compute_open_sizing_from_accounts accounts minBalanceRequired leverage
        currentPrice).1 * (leverage : ℚ) ∧
    (compute_open_sizing_from_accounts accounts minBalanceRequired leverage
        currentPrice).2.2 =
      (compute_open_sizing_from_accounts accounts minBalanceRequired leverage
        currentPrice).2.1 / currentPrice ∧
    compute_open_sizing_from_accounts [⟨1, 1000, 1000⟩, ⟨2, 800, 800⟩] 100 1
        currentPrice =
      (700, 700, 700 / currentPrice) := by
  have hnl : ¬ leverage < 1 := not_lt.mpr hlev
  have hne2 : get_account_balances accounts ≠ [] := by
    simpa [get_account_balances] using hne
  refine ⟨?_, ?_, ?_, ?_⟩
  · simp only [compute_open_sizing_from_accounts, compute_open_sizing,
      if_neg hnl]
    rw [min_margin_capacity minBalanceRequired _ hne2]
    simp [get_account_balances, List.map_map, Function.comp_def]
  · by_cases h1 : 1 < leverage
    · simp [compute_open_sizing_from_accounts, compute_open_sizing, hnl, h1]
    · have h2 : leverage = 1 := le_antisymm (not_lt.mp h1) hlev
      subst h2
      simp [compute_open_sizing_from_accounts, compute_open_sizing]
  · simp [compute_open_sizing_from_accounts, compute_open_sizing]
  · norm_num [compute_open_sizing_from_accounts, compute_open_sizing,
      get_account_balances, minOf, min_def, max_def]

/-- C9 amended witness: the spec scenario (total balances 1000 / 800) at
market price 50. -/
theorem compute_open_sizing_total_balance_spec_witness :
    (compute_open_sizing_from_accounts [⟨1, 1000, 1000⟩, ⟨2, 800, 800⟩] 100 1
        50).1 =
      minOf ([⟨1, 1000, 1000⟩, ⟨2, 800, 800⟩].map
        fun a : AccountFunds => max 0 (a.balance - 100)) ∧
    (compute_open_sizing_from_accounts [⟨1, 1000, 1000⟩, ⟨2, 800, 800⟩] 100 1
        50).2.1 =
      (compute_open_sizing_from_accounts [⟨1, 1000, 1000⟩, ⟨2, 800, 800⟩] 100 1
        50).1 * ((1 : ℕ) : ℚ) ∧
    (compute_open_sizing_from_accounts [⟨1, 1000, 1000⟩, ⟨2, 800, 800⟩] 100 1
        50).2.2 =
      (compute_open_sizing_from_accounts [⟨1, 1000, 1000⟩, ⟨2, 800, 800⟩] 100 1
        50).2.1 / 50 ∧
    compute_open_sizing_from_accounts [⟨1, 1000, 1000⟩, ⟨2, 800, 800⟩] 100 1
        50 =
      (700, 700, 700 / 50) :=
  compute_open_sizing_total_balance_spec [⟨1, 1000, 1000⟩, ⟨2, 800, 800⟩] 100 1
    50 (by simp) (le_refl 1)

/-! ## C8 — mirrored protective triggers -/

/-- C8: for every hedge position whose protective orders are planned with the
shared basis `p = avg_entry_price` and the shared distance `d`, the long leg's
stop-loss trigger equals the short leg's take-profit trigger (both
`p * (1 - d)`), and the long leg's take-profit trigger equals the short leg's
stop-loss trigger (both `p * (1 + d)`). -/
theorem create_hedge_sl_tp_plans_mirrored (lev : ℕ)
    (config : StopTakeDistanceConfig) (positions : List SlTpPosition)
    (htot : (positions.map SlTpPosition.amount).sum ≠ 0)
    (posL posS : SlTpPosition) (hmemL : posL ∈ positions)
    (hmemS : posS ∈ positions) (hL : posL.side = OrderSide.buy)
    (hS : posS.side ≠ OrderSide.buy) :
    plan_protective_orders
        (avg_entry_price positions * (1 - price_distance_percent lev config))
        (avg_entry_price positions * (1 + price_distance_percent lev config))
        posL ∈ create_hedge_sl_tp_plans lev config positions ∧
    plan_protective_orders
        (avg_entry_price positions * (1 - price_distance_percent lev config))
        (avg_entry_price positions * (1 + price_distance_percent lev config))
        posS ∈ create_hedge_sl_tp_plans lev config positions ∧
    (plan_protective_orders
        (avg_entry_price positions * (1 - price_distance_percent lev config))
        (avg_entry_price positions * (1 + price_distance_percent lev config))
        posL).slTriggerPrice =
      avg_entry_price positions * (1 - price_distance_percent lev config) ∧
    (plan_protective_orders
        (avg_entry_price positions * (1 - price_distance_percent lev config))
        (avg_entry_price positions * (1 + price_distance_percent lev config))
        posL).slTriggerPrice =
      (plan_protective_orders
        (avg_entry_price positions * (1 - price_distance_percent lev config))
        (avg_entry_price positions * (1 + price_distance_percent lev config))
        posS).tpTriggerPrice ∧
    (plan_protective_orders
        (avg_entry_price positions * (1 - price_distance_percent lev config))
        (avg_entry_price positions * (1 + price_distance_percent lev config))
        posL).tpTriggerPrice =
      avg_entry_price positions * (1 + price_distance_percent lev config) ∧
    (plan_protective_orders
        (avg_entry_price positions * (1 - price_distance_percent lev config))
        (avg_entry_price positions * (1 + price_distance_percent lev config))
        posL).tpTriggerPrice =
      (plan_protective_orders
        (avg_entry_price positions * (1 - price_distance_percent lev config))
        (avg_entry_price positions * (1 + price_distance_percent lev config))
        posS).slTriggerPrice := by
  have hplans : create_hedge_sl_tp_plans lev config positions =
      positions.map (plan_protective_orders
        (avg_entry_price positions * (1 - price_distance_percent lev config))
        (avg_entry_price positions * (1 + price_distance_percent lev config))) := by
    simp [create_hedge_sl_tp_plans, htot]
  refine ⟨?_, ?_, ?_, ?_, ?_, ?_⟩
  · rw [hplans]; exact List.mem_map_of_mem _ hmemL
  · rw [hplans]; exact List.mem_map_of_mem _ hmemS
  · simp [plan_protective_orders, hL]
  · simp [plan_protective_orders, hL, hS]
  · simp [plan_protective_orders, hL]
  · simp [plan_protective_orders, hL, hS]

/-- Concrete positions for the C8 witness: account 1 long, account 2 short,
equal sizes, both filled at 100. -/
def sl_tp_witness_positions : List SlTpPosition :=
  [⟨1, OrderSide.buy, 1, 100⟩, ⟨2, OrderSide.sell, 1, 100⟩]

/-- C8 witness: the mirrored-trigger equalities at the concrete two-leg hedge
with leverage 5 and automatic distance. -/
theorem create_hedge_sl_tp_plans_mirrored_witness :
    (plan_protective_orders
        (avg_entry_price sl_tp_witness_positions *
          (1 - price_distance_percent 5 StopTakeDistanceConfig.auto))
        (avg_entry_price sl_tp_witness_positions *
          (1 + price_distance_percent 5 StopTakeDistanceConfig.auto))
        ⟨1, OrderSide.buy, 1, 100⟩).slTriggerPrice =
      (plan_protective_orders
        (avg_entry_price sl_tp_witness_positions *
          (1 - price_distance_percent 5 StopTakeDistanceConfig.auto))
        (avg_entry_price sl_tp_witness_positions *
          (1 + price_distance_percent 5 StopTakeDistanceConfig.auto))
        ⟨2, OrderSide.sell, 1, 100⟩).tpTriggerPrice :=
  (create_hedge_sl_tp_plans_mirrored 5 StopTakeDistanceConfig.auto
    sl_tp_witness_positions (by norm_num [sl_tp_witness_positions])
    ⟨1, OrderSide.buy, 1, 100⟩ ⟨2, OrderSide.sell, 1, 100⟩
    (by simp [sl_tp_witness_positions]) (by simp [sl_tp_witness_positions])
    rfl (by simp)).2.2.2.1

/-! ## C6 — risk gate ordering -/

/-- C6: `check_open_position_risk` evaluates its gates in order — emergency
stop; global daily-loss ceiling (whose breach also activates the emergency
stop); per-pair daily-loss ceiling; requested size against the pair's max
position size; then per-account minimum balance followed by per-account
daily-loss ceiling — returning at the first failing gate with allowed = false
and a non-none reason, and returning allowed = true exactly when every check
passes. -/
theorem check_open_position_risk_gate_order (s : RiskState) (g : ℚ)
    (pid : String) (pmd pms amt : ℚ) (accs : List AccountRiskEntry) :
    (s.emergencyStopActive = true →
      check_open_position_risk s g pid pmd pms amt accs =
        (⟨false, some RiskReason.emergencyStopActive⟩, s)) ∧
    (s.emergencyStopActive = false → g ≤ totalValues s.dailyLosses →
      (check_open_position_risk s g pid pmd pms amt accs).1 =
        ⟨false, some RiskReason.globalDailyLossLimit⟩ ∧
      (check_open_position_risk s g pid pmd pms amt accs).2.emergencyStopActive =
        true) ∧
    (s.emergencyStopActive = false → totalValues s.dailyLosses < g →
      pmd ≤ lookupD s.pairDailyLosses pid →
      check_open_position_risk s g pid pmd pms amt accs =
        (⟨false, some RiskReason.pairDailyLossLimit⟩, s)) ∧
    (s.emergencyStopActive = false → totalValues s.dailyLosses < g →
      lookupD s.pairDailyLosses pid < pmd → pms < amt →
      check_open_position_risk s g pid pmd pms amt accs =
        (⟨false, some RiskReason.positionSizeLimit⟩, s)) ∧
    (s.emergencyStopActive = false → totalValues s.dailyLosses < g →
      lookupD s.pairDailyLosses pid < pmd → amt ≤ pms →
      check_open_position_risk s g pid pmd pms amt accs =
        check_accounts_risk s accs) ∧
    ((check_open_position_risk s g pid pmd pms amt accs).1.allowed = true ↔
      (s.emergencyStopActive = false ∧ totalValues s.dailyLosses < g ∧
        lookupD s.pairDailyLosses pid < pmd ∧ amt ≤ pms ∧
        accs.all (account_passes s) = true)) ∧
    ((check_open_position_risk s g pid pmd pms amt accs).1.allowed = false →
      (check_open_position_risk s g pid pmd pms amt accs).1.reason ≠ none) ∧
    (∀ e rest b, accs = e :: rest → e.availableBalance = some b →
      b < e.minBalance → s.emergencyStopActive = false →
      totalValues s.dailyLosses < g → lookupD s.pairDailyLosses pid < pmd →
      amt ≤ pms →
      (check_open_position_risk s g pid pmd pms amt accs).1.reason =
        some (RiskReason.balanceLow e.index)) := by
  refine ⟨?_, ?_, ?_, ?_, ?_, ?_, ?_, ?_⟩
  · intro h1
    simp [check_open_position_risk, h1]
  · intro h1 h2
    simp [check_open_position_risk, h1, h2, trigger_risk_event]
  · intro h1 h2 h3
    simp [check_open_position_risk, h1, not_le.mpr h2, h3]
  · intro h1 h2 h3 h4
    simp [check_open_position_risk, h1, not_le.mpr h2, not_le.mpr h3, h4]
  · intro h1 h2 h3 h4
    simp [check_open_position_risk, h1, not_le.mpr h2, not_le.mpr h3,
      not_lt.mpr h4]
  · by_cases h1 : s.emergencyStopActive
    · simp [check_open_position_risk, h1]
    · by_cases h2 : g ≤ totalValues s.dailyLosses
      · simp [check_open_position_risk, h1, h2, not_lt.mpr h2]
      · by_cases h3 : pmd ≤ lookupD s.pairDailyLosses pid
        · simp [check_open_position_risk, h1, h2, h3, not_lt.mpr h3]
        · by_cases h4 : pms < amt
          · simp [check_open_position_risk, h1, h2, h3, h4, not_le.mpr h4]
          · have hacc := (check_accounts_risk_spec s accs).1
            simp [check_open_position_risk, h1, h2, h3, h4, hacc,
              not_le.mp h2, not_le.mp h3, not_lt.mp h4]
  · by_cases h1 : s.emergencyStopActive
    · simp [check_open_position_risk, h1]
    · by_cases h2 : g ≤ totalValues s.dailyLosses
      · simp [check_open_position_risk, h1, h2]
      · by_cases h3 : pmd ≤ lookupD s.pairDailyLosses pid
        · simp [check_open_position_risk, h1, h2, h3]
        · by_cases h4 : pms < amt
          · simp [check_open_position_risk, h1, h2, h3, h4]
          · have hacc := (check_accounts_risk_spec s accs).2.2
            simpa [check_open_position_risk, h1, h2, h3, h4] using hacc
  · intro e rest b hacc hsome hlt h1 h2 h3 h4
    subst hacc
    simp [check_open_position_risk, h1, not_le.mpr h2, not_le.mpr h3,
      not_lt.mpr h4, check_accounts_risk, hsome, hlt]

/-- C6 witness: a clean state with one well-funded account passes the gate. -/
theorem check_open_position_risk_gate_order_witness :
    (check_open_position_risk ⟨[], [], [], false⟩ 5000 ("p") 100 10 5
        [⟨1, 10, 100, some 50⟩]).1.allowed = true :=
  (check_open_position_risk_gate_order ⟨[], [], [], false⟩ 5000 ("p") 100 10 5
      [⟨1, 10, 100, some 50⟩]).2.2.2.2.2.1.mpr
    ⟨rfl, by norm_num [totalValues], by norm_num [lookupD], by norm_num,
      by decide⟩

end PrivateDex
